import Mathlib

/-
Verification of the user-management backend (FastAPI template).

This file gives a shallow embedding, in Lean 4, of the authentication and
entity-lifecycle core of the repository:

  * app/services/auth.py      — token issuance and verification (AuthService)
  * app/services/user.py      — password handling and authentication (UserService)
  * app/services/base.py      — generic lifecycle service (BaseService)
  * app/repositories/base.py  — generic repository (BaseRepository)
  * app/repositories/user.py  — user lookup queries (UserRepository)
  * app/schemas/user.py       — the username validator (UserBase.validate_username)

Conventions of the embedding:

  * Time is modelled as seconds since the epoch (Nat).  datetime.utcnow()
    becomes an explicit `now : Nat` argument; timedelta becomes a Nat of
    seconds.
  * Python exceptions become explicit error results (Except / sum-shaped
    result types).  APIException(status_code, message, error_code) becomes
    the APIError structure below.
  * The database session becomes explicit state passing: a table is a
    List of rows, queries are list searches in storage order, and commits
    are the returned updated list.
  * External primitives (PyJWT, passlib/bcrypt, PostgreSQL unaccent/ILIKE)
    are modelled from their documented behaviour at exactly the granularity
    the code relies on; each model notes what it abstracts.
-/

deriving instance DecidableEq for Except

namespace FastapiBackend

/-- Python `needle in s` on strings restricted to a single character. -/
def strContainsChar (s : String) (c : Char) : Bool :=
  s.data.contains c

/-- Python `str.lower` (per-character ASCII lowering suffices here). -/
def pyLower (s : String) : String :=
  String.mk (s.data.map Char.toLower)

def strStarts (s pre : String) : Bool :=
  pre.data.isPrefixOf s.data

/-! ## Error model (app/core/exceptions.py, app/core/codes.py)

`ResponseCode` lives in app/core/codes.py, which only declares the string
enum of machine-readable codes; the members below are exactly those
referenced by the embedded code paths. -/

inductive ResponseCode where
  | INVALID_TOKEN
  | TOKEN_EXPIRED
  | INVALID_TOKEN_PAYLOAD
  | INVALID_CREDENTIALS
  | INVALID_PASSWORD
  | USER_NOT_FOUND
  | USER_NOT_ACTIVE
  | DUPLICATE_EMAIL
  | DUPLICATE_USERNAME
  | INTERNAL_SERVER_ERROR
  deriving DecidableEq, Repr

/-- APIException carries (status_code, message, error_code); raising it is
modelled as returning this structure as an error value. -/
structure APIError where
  status_code : Nat
  message : String
  error_code : ResponseCode
  deriving DecidableEq, Repr

/-! ## UUID strings

`uuid.UUID(s)` either parses the string or raises ValueError.  User ids are
carried through tokens as `str(user.id)`, the canonical lowercase
8-4-4-4-12 hex form, which `uuid.UUID` parses back and `str` re-renders
unchanged.  The model keeps a uuid as its canonical string and embeds the
parse as a format check (the wider forms uuid.UUID also accepts — braces,
urn prefix, uppercase — never occur in this code). -/

def isHexDigitChar (c : Char) : Bool :=
  c.isDigit || (('a' ≤ c) && (c ≤ 'f'))

def isCanonicalUuid (s : String) : Bool :=
  s.length = 36 &&
    (List.range 36).all fun i =>
      let c := s.data.getD i ' '
      if i = 8 || i = 13 || i = 18 || i = 23 then c = '-' else isHexDigitChar c

/-- Model of `uuid.UUID(s)`: the canonical string itself on success, none
where the Python constructor raises ValueError. -/
def parseUUID (s : String) : Option String :=
  if isCanonicalUuid s then some s else none

/-! ## Token codec (app/services/auth.py)

PyJWT is modelled at the granularity the service relies on: `jwt.encode`
binds a payload to the signing key; `jwt.decode` recovers the payload
exactly when the keys agree, raising ExpiredSignatureError when the `exp`
claim is ≤ the current time (PyJWT's `_validate_exp` with zero leeway) and
InvalidSignatureError/DecodeError (both PyJWTError) otherwise.  The byte
serialization and HMAC are not modelled; what is kept is that decoding is
a pure function of the token and the shared secret. -/

structure TokenDict where
  sub : Option String
  username : Option String
  email : Option String
  is_superuser : Option Bool
  is_verified : Option Bool
  deriving DecidableEq, Repr

/-- The encoded claim set: the caller's dict plus the `exp` and `type`
claims that create_access_token / create_refresh_token add. -/
structure JwtPayload where
  sub : Option String
  username : Option String
  email : Option String
  is_superuser : Option Bool
  is_verified : Option Bool
  exp : Nat
  type : String
  deriving DecidableEq, Repr

structure Jwt where
  payload : JwtPayload
  key : String
  deriving DecidableEq, Repr

inductive JwtDecodeError where
  | expiredSignature
  | pyJwtError
  deriving DecidableEq, Repr

def jwtEncode (payload : JwtPayload) (key : String) : Jwt :=
  { payload := payload, key := key }

def jwtDecode (t : Jwt) (key : String) (now : Nat) : Except JwtDecodeError JwtPayload :=
  if t.key ≠ key then .error .pyJwtError
  else if t.payload.exp ≤ now then .error .expiredSignature
  else .ok t.payload

/-- Settings consumed by AuthService.__init__ (app/core/settings.py). -/
structure AuthConfig where
  secret_key : String
  access_token_expire_minutes : Nat
  refresh_token_expire_days : Nat
  deriving DecidableEq, Repr

/-- AuthService.create_access_token: copies the caller's claims, adds
`exp` (now + expires_delta, defaulting to the configured minutes) and
`type = "access"`, and signs with the configured secret.  The
jwt.encode try/except branch (500 INTERNAL_SERVER_ERROR) is unreachable in
the model because encoding is total here. -/
def create_access_token (cfg : AuthConfig) (data : TokenDict)
    (expires_delta : Option Nat) (now : Nat) : Jwt :=
  let expire :=
    match expires_delta with
    | some d => now + d
    | none => now + cfg.access_token_expire_minutes * 60
  jwtEncode
    { sub := data.sub, username := data.username, email := data.email,
      is_superuser := data.is_superuser, is_verified := data.is_verified,
      exp := expire, type := "access" }
    cfg.secret_key

/-- AuthService.create_refresh_token: as create_access_token but the
default lifetime is the configured days and `type = "refresh"`. -/
def create_refresh_token (cfg : AuthConfig) (data : TokenDict)
    (expires_delta : Option Nat) (now : Nat) : Jwt :=
  let expire :=
    match expires_delta with
    | some d => now + d
    | none => now + cfg.refresh_token_expire_days * 86400
  jwtEncode
    { sub := data.sub, username := data.username, email := data.email,
      is_superuser := data.is_superuser, is_verified := data.is_verified,
      exp := expire, type := "refresh" }
    cfg.secret_key

/-- TokenData (app/schemas/auth.py) as built by verify_token. -/
structure TokenData where
  user_id : String
  username : Option String
  email : Option String
  is_superuser : Bool
  is_verified : Bool
  deriving DecidableEq, Repr

/-- AuthService.verify_token: decode, then reject a `type` different from
the expected one (401 INVALID_TOKEN, "Invalid token type"), then reject a
missing subject (401 INVALID_TOKEN_PAYLOAD), then parse the subject as a
UUID — the ValueError branch of the except chain (401
INVALID_TOKEN_PAYLOAD) — and finally build TokenData, defaulting the two
boolean claims to false when absent. -/
def verify_token (cfg : AuthConfig) (token : Jwt) (token_type : String)
    (now : Nat) : Except APIError TokenData :=
  match jwtDecode token cfg.secret_key now with
  | .error .expiredSignature =>
      .error { status_code := 401, message := "Token has expired",
               error_code := .TOKEN_EXPIRED }
  | .error .pyJwtError =>
      .error { status_code := 401, message := "Could not validate credentials",
               error_code := .INVALID_TOKEN }
  | .ok payload =>
      if payload.type ≠ token_type then
        .error { status_code := 401, message := "Invalid token type",
                 error_code := .INVALID_TOKEN }
      else
        match payload.sub with
        | none =>
            .error { status_code := 401, message := "Invalid token payload",
                     error_code := .INVALID_TOKEN_PAYLOAD }
        | some s =>
            match parseUUID s with
            | none =>
                .error { status_code := 401, message := "Invalid token payload",
                         error_code := .INVALID_TOKEN_PAYLOAD }
            | some uid =>
                .ok { user_id := uid, username := payload.username,
                      email := payload.email,
                      is_superuser := payload.is_superuser.getD false,
                      is_verified := payload.is_verified.getD false }

/-! ## Username validation (app/schemas/user.py, UserBase.validate_username) -/

/-- Python `str.isalnum`: nonempty and every character alphanumeric
(ASCII suffices for the inputs considered here). -/
def pyIsAlnum (v : String) : Bool :=
  !v.isEmpty && v.data.all Char.isAlphanum

/-- UserBase.validate_username, verbatim from the source: reject only when
the string is not alphanumeric AND contains no underscore AND contains no
hyphen; otherwise return the lowercased value. -/
def validate_username (v : String) : Except String String :=
  if !pyIsAlnum v && !(strContainsChar v '_') && !(strContainsChar v '-') then
    .error "Username can only contain letters, numbers, underscores, and hyphens"
  else
    .ok (pyLower v)

/-! ## Password hashing (app/services/user.py, passlib CryptContext)

`pwd_context = CryptContext(schemes=["bcrypt"], deprecated="auto")`.
The bcrypt digest itself is abstracted: `bcryptHashModel` is some fixed
deterministic function of the password producing a digest in bcrypt format
(the real salt drawing is irrelevant to every claim below, which only
consume the boolean verdict of verification).  What is modelled exactly is
the CryptContext control flow documented by passlib: `verify(secret, hash)`
first identifies the hash against the configured schemes and raises
UnknownHashError (a ValueError) when the hash is not recognized — it does
not return false on a malformed digest. -/

def bcryptHashModel (password : String) : String :=
  "$2b$12$" ++ password

/-- Passlib's bcrypt handler identifies a hash by its leading `$2*$`
version marker. -/
def bcryptIdentify (digest : String) : Bool :=
  strStarts digest "$2b$" || strStarts digest "$2a$" || strStarts digest "$2y$"

/-- The boolean comparison bcrypt performs on an identified digest. -/
def checkpw (password digest : String) : Bool :=
  digest == bcryptHashModel password

inductive PasslibError where
  | unknownHash
  deriving DecidableEq, Repr

/-- `CryptContext.verify(plain, digest)`: verdict on an identified digest,
UnknownHashError otherwise. -/
def cryptContextVerify (plain digest : String) : Except PasslibError Bool :=
  if bcryptIdentify digest then .ok (checkpw plain digest)
  else .error .unknownHash

/-- UserService.hash_password = pwd_context.hash. -/
def hash_password (password : String) : String :=
  bcryptHashModel password

/-- UserService.verify_password = pwd_context.verify, with no exception
handling around it: a passlib error propagates to the caller. -/
def verify_password (plain_password hashed_password : String) :
    Except PasslibError Bool :=
  cryptContextVerify plain_password hashed_password

/-! ## User rows and queries (app/models/user.py, app/repositories/user.py)

A User row.  The server-assigned timestamps created_at/updated_at are not
modelled (none of the verified operations read them); last_login is a
Nat timestamp as elsewhere. -/

structure User where
  id : String
  email : String
  username : String
  full_name : Option String
  hashed_password : String
  is_active : Bool
  is_superuser : Bool
  is_verified : Bool
  last_login : Option Nat
  created_by : Option String
  updated_by : Option String
  deriving DecidableEq, Repr

/-- A users table in storage order; queries with `.first()` take the first
row in this order. -/
abbrev UserDb := List User

/-- BaseRepository.get specialized to User: filter(User.id == id).first(). -/
def userRepoGet (db : UserDb) (id : String) : Option User :=
  db.find? fun u => u.id == id

/-- UserRepository.get_by_email_or_username:
filter(or_(email == identifier, username == identifier)).first(). -/
def get_by_email_or_username (db : UserDb) (identifier : String) : Option User :=
  db.find? fun u => u.email == identifier || u.username == identifier

/-- Replace the first row satisfying `p` by its image under `f` — the
effect of mutating the object returned by a `.first()` query and
committing.  (Primary-key queries match at most one row anyway.) -/
def updateFirst {α : Type} (p : α → Bool) (f : α → α) : List α → List α
  | [] => []
  | x :: rest => if p x then f x :: rest else x :: updateFirst p f rest

/-- BaseRepository.update specialized to User with a payload touching the
mapped column set `f`: fetch by id, apply the setattr payload to that row,
commit; returns the (refreshed) updated row, or none when the id is
absent.  Every payload key used by UserService ("last_login",
"hashed_password", "is_active", "is_verified") is a mapped column, so the
hasattr guard of the generic update always passes here. -/
def userRepoUpdate (db : UserDb) (id : String) (f : User → User) :
    Option User × UserDb :=
  match userRepoGet db id with
  | none => (none, db)
  | some u => (some (f u), updateFirst (fun v => v.id == id) f db)

/-! ## UserService (app/services/user.py) -/

/-- The display_name property: `self.full_name or self.username` — Python
`or`, so an empty-string full_name also falls back to the username. -/
def display_name (u : User) : String :=
  match u.full_name with
  | some s => if s.isEmpty then u.username else s
  | none => u.username

/-- UserResponseSchema fields consumed by the claims, plus the derived
display_name injected before model_validate. -/
structure UserResponse where
  id : String
  email : String
  username : String
  full_name : Option String
  is_active : Bool
  is_superuser : Bool
  is_verified : Bool
  last_login : Option Nat
  display_name : String
  deriving DecidableEq, Repr

def toResponse (u : User) : UserResponse :=
  { id := u.id, email := u.email, username := u.username,
    full_name := u.full_name, is_active := u.is_active,
    is_superuser := u.is_superuser, is_verified := u.is_verified,
    last_login := u.last_login, display_name := display_name u }

/-- UserService.update_last_login:
repository.update(user_id, \x7b"last_login": datetime.utcnow()\x7d). -/
def update_last_login (db : UserDb) (user_id : String) (now : Nat) :
    Option User × UserDb :=
  userRepoUpdate db user_id fun u => { u with last_login := some now }

/-- UserService.authenticate.  Lookup by email-or-username, then password
check, then active check, in source order; each failure returns None with
the table untouched.  On success the last_login update commits and the
projection of the (identity-mapped, hence updated) row is returned.  A
passlib error from verify_password propagates. -/
def authenticate (db : UserDb) (username_or_email password : String)
    (now : Nat) : Except PasslibError (Option UserResponse × UserDb) :=
  match get_by_email_or_username db username_or_email with
  | none => .ok (none, db)
  | some user =>
    match verify_password password user.hashed_password with
    | .error e => .error e
    | .ok verdict =>
      if !verdict then .ok (none, db)
      else if !user.is_active then .ok (none, db)
      else
        let db' := (update_last_login db user.id now).2
        .ok (some (toResponse { user with last_login := some now }), db')

/-- PasswordChangeSchema (schema-level validation of the new password
happens upstream of the service and is not needed by the claims). -/
structure PasswordChange where
  current_password : String
  new_password : String
  deriving DecidableEq, Repr

/-- Observable outcome of change_password: a returned boolean, a raised
APIException, or a propagated passlib error. -/
inductive ChangePasswordResult where
  | ret (b : Bool)
  | apiError (e : APIError)
  | passlibError (e : PasslibError)
  deriving DecidableEq, Repr

/-- UserService.change_password: absent user returns false; a current
password that verifies false raises 400 INVALID_PASSWORD before any write;
otherwise the stored hash is replaced by hash_password(new_password) and
the update's success (the user was just fetched, so it is found again)
yields true. -/
def change_password (db : UserDb) (user_id : String)
    (password_data : PasswordChange) : ChangePasswordResult × UserDb :=
  match userRepoGet db user_id with
  | none => (.ret false, db)
  | some user =>
    match verify_password password_data.current_password user.hashed_password with
    | .error e => (.passlibError e, db)
    | .ok verdict =>
      if !verdict then
        (.apiError { status_code := 400, message := "Current password is incorrect",
                     error_code := .INVALID_PASSWORD }, db)
      else
        let new_hashed_password := hash_password password_data.new_password
        match userRepoUpdate db user_id
            (fun u => { u with hashed_password := new_hashed_password }) with
        | (some _, db') => (.ret true, db')
        | (none, db') => (.ret false, db')

/-! ## Generic rows (app/repositories/base.py, app/services/base.py)

The generic repository works on an arbitrary SQLAlchemy model via
hasattr/getattr/setattr, so a row is embedded as an attribute map: an
association list from column name to value, in declaration order.  The set
of mapped attribute names of the model class (what `hasattr(self.model, k)`
and `hasattr(db_obj, k)` test) is an explicit `attrs` parameter. -/

inductive Value where
  | vStr (s : String)
  | vBool (b : Bool)
  | vNat (n : Nat)
  | vNone
  deriving DecidableEq, Repr

abbrev Entity := List (String × Value)

/-- First binding of a key in a row (a dict holds one binding per key). -/
def lookupAttr (e : Entity) (k : String) : Option Value :=
  match e with
  | [] => none
  | (k', v) :: rest => if k' = k then some v else lookupAttr rest k

/-- Python `getattr` on a mapped instance: every mapped column is present,
a column never assigned reads as None. -/
def getAttr (e : Entity) (k : String) : Value :=
  (lookupAttr e k).getD .vNone

/-- Python `setattr` (also dict assignment `d[k] = v`, which has the same
replace-in-place-or-append-preserving-order semantics): replace the first
binding of `k`, or append one. -/
def setAttr (e : Entity) (k : String) (v : Value) : Entity :=
  match e with
  | [] => [(k, v)]
  | (k', v') :: rest => if k' = k then (k, v) :: rest else (k', v') :: setAttr rest k v

/-- The loop body of BaseRepository.update: `for key, value in
obj_in.items(): if hasattr(db_obj, key): setattr(db_obj, key, value)`. -/
def applyFieldMap (attrs : List String) (e : Entity) (obj_in : Entity) : Entity :=
  obj_in.foldl (fun acc kv => if attrs.contains kv.1 then setAttr acc kv.1 kv.2 else acc) e

/-- The primary-key condition `model.id == id` of the generic queries. -/
def idPred (id : String) (e : Entity) : Bool :=
  getAttr e "id" == Value.vStr id

/-- BaseRepository.get: filter(model.id == id).first(). -/
def baseRepoGet (db : List Entity) (id : String) : Option Entity :=
  db.find? (idPred id)

/-- BaseRepository.update: fetch by id; when present, setattr each payload
entry whose key is a mapped attribute onto that row, commit, and return
the refreshed row; when absent return None with no write. -/
def baseRepoUpdate (attrs : List String) (db : List Entity) (id : String)
    (obj_in : Entity) : Option Entity × List Entity :=
  match baseRepoGet db id with
  | none => (none, db)
  | some e =>
      (some (applyFieldMap attrs e obj_in),
       updateFirst (idPred id) (fun x => applyFieldMap attrs x obj_in) db)

/-- BaseRepository.create: `self.model(**obj_in)` then add/commit/refresh.
Server-assigned defaults (id, created_at, updated_at) are outside the
model; the row holds exactly the payload fields. -/
def baseRepoCreate (db : List Entity) (obj_in : Entity) : Entity × List Entity :=
  (obj_in, db ++ [obj_in])

/-! ## Search and filtering (BaseRepository.get_multi)

`unaccent` is PostgreSQL's accent-stripping function, modelled on a small
table of accented letters (identity elsewhere); ILIKE '%v%' is
case-insensitive containment of v, assuming the search value itself
carries no SQL wildcard characters (none of the claims depend on wildcard
behaviour, only on the predicate being applied per field). -/

def unaccentChar (c : Char) : Char :=
  if c = 'á' || c = 'à' || c = 'â' || c = 'ä' || c = 'ã' then 'a'
  else if c = 'é' || c = 'è' || c = 'ê' || c = 'ë' then 'e'
  else if c = 'í' || c = 'ì' || c = 'î' || c = 'ï' then 'i'
  else if c = 'ó' || c = 'ò' || c = 'ô' || c = 'ö' || c = 'õ' then 'o'
  else if c = 'ú' || c = 'ù' || c = 'û' || c = 'ü' then 'u'
  else if c = 'ç' then 'c'
  else c

def unaccentStr (s : String) : String :=
  String.mk (s.data.map unaccentChar)

/-- Containment of `needle` in `hay` as lists of characters. -/
def containsSub (hay needle : String) : Bool :=
  (List.range (hay.data.length + 1)).any fun i => needle.data.isPrefixOf (hay.data.drop i)

/-- The textual content of a searched column (search targets string
columns such as email and username). -/
def valueText : Value → String
  | .vStr s => s
  | .vBool _ => ""
  | .vNat _ => ""
  | .vNone => ""

/-- One search entry's predicate:
`func.unaccent(column).ilike(func.unaccent("%" + value + "%"))`. -/
def ilikeUnaccent (column value : String) : Bool :=
  containsSub (pyLower (unaccentStr column)) (pyLower (unaccentStr value))

/-- The conjunction of `query.filter(column == value)` calls made for the
`filters` dict (keys without a matching attribute, or None values, are
skipped). -/
def filtersPred (attrs : List String) (filters : List (String × Value)) (e : Entity) : Bool :=
  filters.all fun kv =>
    if attrs.contains kv.1 && !(kv.2 == Value.vNone) then getAttr e kv.1 == kv.2 else true

/-- The conjunction of ilike filters made for the `search` dict: each
search field contributes an independent ANDed predicate. -/
def searchPred (attrs : List String) (search : List (String × String)) (e : Entity) : Bool :=
  search.all fun kv =>
    if attrs.contains kv.1 then ilikeUnaccent (valueText (getAttr e kv.1)) kv.2 else true

/-- BaseRepository.get_multi without count: apply the filters conjuncts,
then the search conjuncts, then OFFSET skip LIMIT limit. -/
def get_multi (attrs : List String) (db : List Entity) (skip limit : Nat)
    (filters : List (String × Value)) (search : List (String × String)) : List Entity :=
  let query := db.filter (filtersPred attrs filters)
  let query := query.filter (searchPred attrs search)
  (query.drop skip).take limit

/-- BaseRepository.get_multi with count=True: the total is the filtered
count before pagination. -/
def get_multi_count (attrs : List String) (db : List Entity) (skip limit : Nat)
    (filters : List (String × Value)) (search : List (String × String)) :
    List Entity × Nat :=
  let query := db.filter (filtersPred attrs filters)
  let query := query.filter (searchPred attrs search)
  ((query.drop skip).take limit, query.length)

/-! ## Lifecycle service (app/services/base.py)

The BaseService hook methods (_validate_* and _post_*) are no-ops in the
base class, and the claims below are about the base pipelines, so the
hooks disappear from the embedding.  Audit stamping is the dict-assignment
step each pipeline performs on its write payload. -/

/-- The create pipeline's stamping: `obj_data["created_by"] =
current_user_id; obj_data["updated_by"] = current_user_id` when an acting
user is supplied (a UUID object is always truthy). -/
def stampCreate (obj_data : Entity) (current_user_id : Option String) : Entity :=
  match current_user_id with
  | some uid => setAttr (setAttr obj_data "created_by" (.vStr uid)) "updated_by" (.vStr uid)
  | none => obj_data

/-- The update/soft-delete/restore pipelines' stamping:
`obj_data["updated_by"] = current_user_id` when an acting user is
supplied. -/
def stampUpdate (obj_data : Entity) (current_user_id : Option String) : Entity :=
  match current_user_id with
  | some uid => setAttr obj_data "updated_by" (.vStr uid)
  | none => obj_data

/-- BaseService.create: stamp the payload, (no-op validation), persist.
The projection step (model_validate of to_dict) is not part of the stored
state and is omitted. -/
def svcCreate (db : List Entity) (obj_in : Entity)
    (current_user_id : Option String) : Entity × List Entity :=
  baseRepoCreate db (stampCreate obj_in current_user_id)

/-- BaseService.update: load (None when absent), stamp the payload,
(no-op validation), write through the repository. -/
def svcUpdate (attrs : List String) (db : List Entity) (id : String)
    (obj_in : Entity) (current_user_id : Option String) :
    Option Entity × List Entity :=
  match baseRepoGet db id with
  | none => (none, db)
  | some _ => baseRepoUpdate attrs db id (stampUpdate obj_in current_user_id)

/-- BaseService.soft_delete: load (None when absent), build the payload
\x7b"is_active": False\x7d plus the audit stamp, write through the
repository. -/
def soft_delete (attrs : List String) (db : List Entity) (id : String)
    (current_user_id : Option String) : Option Entity × List Entity :=
  match baseRepoGet db id with
  | none => (none, db)
  | some _ =>
      baseRepoUpdate attrs db id
        (stampUpdate [("is_active", Value.vBool false)] current_user_id)

/-- BaseService.restore: as soft_delete with \x7b"is_active": True\x7d. -/
def svcRestore (attrs : List String) (db : List Entity) (id : String)
    (current_user_id : Option String) : Option Entity × List Entity :=
  match baseRepoGet db id with
  | none => (none, db)
  | some _ =>
      baseRepoUpdate attrs db id
        (stampUpdate [("is_active", Value.vBool true)] current_user_id)

/-! ## Attribute-map lemmas -/

theorem lookup_setAttr_same (e : Entity) (k : String) (v : Value) :
    lookupAttr (setAttr e k v) k = some v := by
  induction e with
  | nil => simp [setAttr, lookupAttr]
  | cons hd tl ih =>
    obtain ⟨k1, v1⟩ := hd
    by_cases h : k1 = k
    · simp [setAttr, h, lookupAttr]
    · simpa [setAttr, h, lookupAttr] using ih

theorem lookup_setAttr_ne (e : Entity) (k k' : String) (v : Value) (h : k' ≠ k) :
    lookupAttr (setAttr e k v) k' = lookupAttr e k' := by
  induction e with
  | nil => simp [setAttr, lookupAttr, h.symm]
  | cons hd tl ih =>
    obtain ⟨k1, v1⟩ := hd
    by_cases hk : k1 = k
    · subst hk
      simp [setAttr, lookupAttr, h.symm]
    · by_cases hk' : k1 = k'
      · simp [setAttr, hk, lookupAttr, hk', h]
      · simpa [setAttr, hk, lookupAttr, hk'] using ih

theorem getAttr_setAttr_same (e : Entity) (k : String) (v : Value) :
    getAttr (setAttr e k v) k = v := by
  simp [getAttr, lookup_setAttr_same]

theorem getAttr_setAttr_ne (e : Entity) (k k' : String) (v : Value) (h : k' ≠ k) :
    getAttr (setAttr e k v) k' = getAttr e k' := by
  simp [getAttr, lookup_setAttr_ne e k k' v h]

theorem setAttr_of_lookup_eq (e : Entity) (k : String) (v : Value)
    (h : lookupAttr e k = some v) : setAttr e k v = e := by
  induction e with
  | nil => simp [lookupAttr] at h
  | cons hd tl ih =>
    obtain ⟨k1, v1⟩ := hd
    by_cases hk : k1 = k
    · subst hk
      simp [lookupAttr] at h
      simp [setAttr, h]
    · simp [lookupAttr, hk] at h
      simp [setAttr, hk, ih h]

theorem getAttr_applyFieldMap_not_attr (attrs : List String) (obj : Entity)
    (e : Entity) (k : String) (h : attrs.contains k = false) :
    getAttr (applyFieldMap attrs e obj) k = getAttr e k := by
  induction obj generalizing e with
  | nil => simp [applyFieldMap]
  | cons hd tl ih =>
    simp only [applyFieldMap, List.foldl_cons] at *
    by_cases hm : attrs.contains hd.1
    · have hne : k ≠ hd.1 := by
        intro hk
        rw [hk] at h
        rw [h] at hm
        exact Bool.noConfusion hm
      rw [if_pos hm]
      rw [ih (setAttr e hd.1 hd.2), getAttr_setAttr_ne e hd.1 k hd.2 hne]
    · rw [if_neg hm]
      exact ih e

theorem getAttr_applyFieldMap_not_key (attrs : List String) (obj : Entity)
    (e : Entity) (k : String) (h : (obj.map Prod.fst).contains k = false) :
    getAttr (applyFieldMap attrs e obj) k = getAttr e k := by
  induction obj generalizing e with
  | nil => simp [applyFieldMap]
  | cons hd tl ih =>
    simp only [List.map_cons, List.contains_cons, Bool.or_eq_false_iff,
      beq_eq_false_iff_ne] at h
    obtain ⟨hne, htl⟩ := h
    simp only [applyFieldMap, List.foldl_cons] at *
    by_cases hm : attrs.contains hd.1
    · rw [if_pos hm, ih _ htl, getAttr_setAttr_ne e hd.1 k hd.2 hne]
    · rw [if_neg hm]
      exact ih e htl

theorem find?_updateFirst {α : Type} (p : α → Bool) (f : α → α) (l : List α)
    (hp : ∀ x, p x = true → p (f x) = true) :
    List.find? p (updateFirst p f l) = (List.find? p l).map f := by
  induction l with
  | nil => simp [updateFirst]
  | cons hd tl ih =>
    by_cases h : p hd = true
    · simp [updateFirst, h, List.find?_cons_of_pos, hp hd h]
    · have h' : p hd = false := by
        cases hpd : p hd
        · rfl
        · exact absurd hpd h
      simp [updateFirst, h', List.find?_cons_of_neg, ih]

theorem updateFirst_idem {α : Type} (p : α → Bool) (f : α → α) (l : List α)
    (hp : ∀ x, p (f x) = p x) (hf : ∀ x, f (f x) = f x) :
    updateFirst p f (updateFirst p f l) = updateFirst p f l := by
  induction l with
  | nil => simp [updateFirst]
  | cons hd tl ih =>
    by_cases h : p hd = true
    · simp [updateFirst, h, hp hd, hf hd]
    · have h' : p hd = false := by
        cases hpd : p hd
        · rfl
        · exact absurd hpd h
      simp [updateFirst, h', ih]

/-! ## Lifecycle pipeline lemmas -/

theorem soft_delete_eq (attrs : List String) (db : List Entity) (id : String)
    (cuid : Option String) (e : Entity) (hget : baseRepoGet db id = some e) :
    soft_delete attrs db id cuid =
      (some (applyFieldMap attrs e (stampUpdate [("is_active", Value.vBool false)] cuid)),
       updateFirst (idPred id)
         (fun x => applyFieldMap attrs x
           (stampUpdate [("is_active", Value.vBool false)] cuid)) db) := by
  simp [soft_delete, baseRepoUpdate, hget]

theorem svcRestore_eq (attrs : List String) (db : List Entity) (id : String)
    (cuid : Option String) (e : Entity) (hget : baseRepoGet db id = some e) :
    svcRestore attrs db id cuid =
      (some (applyFieldMap attrs e (stampUpdate [("is_active", Value.vBool true)] cuid)),
       updateFirst (idPred id)
         (fun x => applyFieldMap attrs x
           (stampUpdate [("is_active", Value.vBool true)] cuid)) db) := by
  simp [svcRestore, baseRepoUpdate, hget]

/-- The soft-delete/restore write payload only names `is_active` and
(possibly) `updated_by`: any other attribute is outside its key set. -/
theorem stamp_active_keys (b : Bool) (cuid : Option String) (k : String)
    (h1 : k ≠ "is_active") (h2 : k ≠ "updated_by") :
    ((stampUpdate [("is_active", Value.vBool b)] cuid).map Prod.fst).contains k = false := by
  cases cuid <;>
    simp [stampUpdate, setAttr, List.contains_cons, h1, h2]

/-- Unfolding of applyFieldMap on a one-entry payload. -/
theorem applyFieldMap_one (attrs : List String) (e : Entity) (k1 : String)
    (v1 : Value) :
    applyFieldMap attrs e [(k1, v1)] =
      if attrs.contains k1 then setAttr e k1 v1 else e := by
  simp only [applyFieldMap, List.foldl_cons, List.foldl_nil]

/-- Unfolding of applyFieldMap on a two-entry payload. -/
theorem applyFieldMap_two (attrs : List String) (e : Entity) (k1 k2 : String)
    (v1 v2 : Value) :
    applyFieldMap attrs e [(k1, v1), (k2, v2)] =
      (if attrs.contains k2 then
        setAttr (if attrs.contains k1 then setAttr e k1 v1 else e) k2 v2
      else if attrs.contains k1 then setAttr e k1 v1 else e) := by
  simp only [applyFieldMap, List.foldl_cons, List.foldl_nil]

/-- Applying the soft-delete/restore payload sets `is_active` on the row
when the model has that column. -/
theorem getAttr_apply_active (attrs : List String) (e : Entity) (b : Bool)
    (cuid : Option String) (hattr : attrs.contains "is_active" = true) :
    getAttr (applyFieldMap attrs e (stampUpdate [("is_active", Value.vBool b)] cuid))
      "is_active" = Value.vBool b := by
  cases cuid with
  | none =>
    rw [show stampUpdate [("is_active", Value.vBool b)] none =
        [("is_active", Value.vBool b)] from rfl]
    rw [applyFieldMap_one, if_pos hattr, getAttr_setAttr_same]
  | some uid =>
    rw [show stampUpdate [("is_active", Value.vBool b)] (some uid) =
        [("is_active", Value.vBool b), ("updated_by", Value.vStr uid)] from by
      simp [stampUpdate, setAttr]]
    rw [applyFieldMap_two]
    by_cases hu : attrs.contains "updated_by" = true
    · rw [if_pos hu, if_pos hattr,
        getAttr_setAttr_ne _ _ _ _ (by decide : ("is_active" : String) ≠ "updated_by"),
        getAttr_setAttr_same]
    · rw [if_neg hu, if_pos hattr, getAttr_setAttr_same]

/-- Re-applying the same single-key payload is a no-op on the row. -/
theorem applyFieldMap_single_idem (attrs : List String) (e : Entity)
    (k1 : String) (v1 : Value) :
    applyFieldMap attrs (applyFieldMap attrs e [(k1, v1)]) [(k1, v1)] =
      applyFieldMap attrs e [(k1, v1)] := by
  rw [applyFieldMap_one, applyFieldMap_one]
  by_cases h : attrs.contains k1 = true
  · rw [if_pos h, if_pos h,
      setAttr_of_lookup_eq _ _ _ (lookup_setAttr_same e k1 v1)]
  · rw [if_neg h, if_neg h]

/-- Re-applying the same two-distinct-key payload is a no-op on the row. -/
theorem applyFieldMap_pair_idem (attrs : List String) (e : Entity)
    (k1 k2 : String) (v1 v2 : Value) (hne : k1 ≠ k2) :
    applyFieldMap attrs (applyFieldMap attrs e [(k1, v1), (k2, v2)]) [(k1, v1), (k2, v2)] =
      applyFieldMap attrs e [(k1, v1), (k2, v2)] := by
  rw [applyFieldMap_two, applyFieldMap_two]
  by_cases h1 : attrs.contains k1 = true <;> by_cases h2 : attrs.contains k2 = true
  · rw [if_pos h1, if_pos h2, if_pos h1, if_pos h2]
    have hx : setAttr (setAttr (setAttr e k1 v1) k2 v2) k1 v1 =
        setAttr (setAttr e k1 v1) k2 v2 :=
      setAttr_of_lookup_eq _ _ _ (by
        rw [lookup_setAttr_ne _ _ _ _ hne, lookup_setAttr_same])
    rw [hx, setAttr_of_lookup_eq _ _ _ (lookup_setAttr_same _ k2 v2)]
  · rw [if_pos h1, if_neg h2, if_pos h1, if_neg h2,
      setAttr_of_lookup_eq _ _ _ (lookup_setAttr_same _ k1 v1)]
  · rw [if_neg h1, if_pos h2, if_neg h1, if_pos h2,
      setAttr_of_lookup_eq _ _ _ (lookup_setAttr_same _ k2 v2)]
  · rw [if_neg h1, if_neg h2, if_neg h1, if_neg h2]

/-- Re-applying the soft-delete/restore payload is a no-op on the row. -/
theorem applyFieldMap_stamp_active_idem (attrs : List String) (e : Entity)
    (b : Bool) (cuid : Option String) :
    applyFieldMap attrs
      (applyFieldMap attrs e (stampUpdate [("is_active", Value.vBool b)] cuid))
      (stampUpdate [("is_active", Value.vBool b)] cuid) =
      applyFieldMap attrs e (stampUpdate [("is_active", Value.vBool b)] cuid) := by
  cases cuid with
  | none => exact applyFieldMap_single_idem attrs e "is_active" (Value.vBool b)
  | some uid =>
    have h : stampUpdate [("is_active", Value.vBool b)] (some uid) =
        [("is_active", Value.vBool b), ("updated_by", Value.vStr uid)] := by
      simp [stampUpdate, setAttr]
    rw [h]
    exact applyFieldMap_pair_idem attrs e _ _ _ _ (by decide)

/-- The soft-delete/restore payload never touches the id column, so row
identity (and hence the primary-key query) is preserved. -/
theorem idPred_apply_active (attrs : List String) (id : String) (b : Bool)
    (cuid : Option String) (x : Entity) :
    idPred id (applyFieldMap attrs x (stampUpdate [("is_active", Value.vBool b)] cuid)) =
      idPred id x := by
  unfold idPred
  rw [getAttr_applyFieldMap_not_key _ _ _ _
    (stamp_active_keys b cuid "id" (by decide) (by decide))]

/-- Updating the first row matched by the primary key with an id-preserving
write leaves it the row the primary-key query finds. -/
theorem baseRepoGet_updateFirst (id : String) (f : Entity → Entity)
    (db : List Entity) (hp : ∀ x, idPred id (f x) = idPred id x) :
    baseRepoGet (updateFirst (idPred id) f db) id = (baseRepoGet db id).map f := by
  unfold baseRepoGet
  exact find?_updateFirst _ f db fun x hx => by rw [hp]; exact hx

/-- Setting a key absent from a dict appends the binding. -/
theorem setAttr_append (e : Entity) (k : String) (v : Value)
    (h : (e.map Prod.fst).contains k = false) : setAttr e k v = e ++ [(k, v)] := by
  induction e with
  | nil => rfl
  | cons hd tl ih =>
    obtain ⟨k1, v1⟩ := hd
    simp only [List.map_cons, List.contains_cons, Bool.or_eq_false_iff,
      beq_eq_false_iff_ne] at h
    obtain ⟨hne, htl⟩ := h
    simp [setAttr, hne.symm, ih htl]

theorem svcUpdate_eq (attrs : List String) (db : List Entity) (id : String)
    (obj_in : Entity) (cuid : Option String) (e : Entity)
    (hget : baseRepoGet db id = some e) :
    svcUpdate attrs db id obj_in cuid =
      (some (applyFieldMap attrs e (stampUpdate obj_in cuid)),
       updateFirst (idPred id)
         (fun x => applyFieldMap attrs x (stampUpdate obj_in cuid)) db) := by
  simp [svcUpdate, baseRepoUpdate, hget]

/-- An update payload whose keys avoid the id column preserves row
identity. -/
theorem idPred_apply_no_id (attrs : List String) (id : String) (pl : Entity)
    (x : Entity) (h : (pl.map Prod.fst).contains "id" = false) :
    idPred id (applyFieldMap attrs x pl) = idPred id x := by
  unfold idPred
  rw [getAttr_applyFieldMap_not_key _ _ _ _ h]

/-- The stamped update payload keeps avoiding the id column. -/
theorem stampUpdate_keys_no_id (obj_in : Entity) (uid : String)
    (hid : (obj_in.map Prod.fst).contains "id" = false)
    (hnu : (obj_in.map Prod.fst).contains "updated_by" = false) :
    ((stampUpdate obj_in (some uid)).map Prod.fst).contains "id" = false := by
  have happ : stampUpdate obj_in (some uid) =
      obj_in ++ [("updated_by", Value.vStr uid)] := setAttr_append obj_in _ _ hnu
  have hmem : "id" ∉ obj_in.map Prod.fst := by simpa using hid
  rw [happ]
  simp [hmem]

/-- The audit field of the stamped payload reaches the row when the model
has the updated_by column. -/
theorem getAttr_apply_stamped (attrs : List String) (e obj_in : Entity)
    (uid : String) (hupd : attrs.contains "updated_by" = true)
    (hnu : (obj_in.map Prod.fst).contains "updated_by" = false) :
    getAttr (applyFieldMap attrs e (stampUpdate obj_in (some uid))) "updated_by" =
      Value.vStr uid := by
  have happ : stampUpdate obj_in (some uid) =
      obj_in ++ [("updated_by", Value.vStr uid)] := setAttr_append obj_in _ _ hnu
  rw [happ]
  unfold applyFieldMap
  rw [List.foldl_append]
  show getAttr (applyFieldMap attrs (applyFieldMap attrs e obj_in)
    [("updated_by", Value.vStr uid)]) "updated_by" = _
  rw [applyFieldMap_one, if_pos hupd, getAttr_setAttr_same]

/-- The soft-delete/restore payload stamps updated_by on the row when the
model has that column. -/
theorem getAttr_apply_active_stamped (attrs : List String) (x : Entity)
    (b : Bool) (uid : String) (hupd : attrs.contains "updated_by" = true) :
    getAttr (applyFieldMap attrs x (stampUpdate [("is_active", Value.vBool b)] (some uid)))
      "updated_by" = Value.vStr uid := by
  rw [show stampUpdate [("is_active", Value.vBool b)] (some uid) =
      [("is_active", Value.vBool b), ("updated_by", Value.vStr uid)] from by
    simp [stampUpdate, setAttr]]
  rw [applyFieldMap_two, if_pos hupd, getAttr_setAttr_same]

/-! ## Claim theorems -/

/-- C5: the claim says any username containing a character outside
letters/digits/underscore/hyphen is rejected by UserBase.validate_username.
The source condition `not v.isalnum() and "_" not in v and "-" not in v`
only rejects when all three conjuncts hold, so "a!b_c" — which contains
the forbidden character "!" but also an underscore — is accepted and
returned lowercased, contradicting the claim and the validator's own error
message. -/
theorem validate_username_accepts_invalid_char :
    validate_username "a!b_c" = .ok "a!b_c" := by decide

/-- C2 counterexample: the claim says UserService.verify_password returns
false on a malformed digest and never raises; on the digest "" (not a
bcrypt hash), passlib's CryptContext.verify raises UnknownHashError, which
verify_password propagates instead of returning a boolean. -/
theorem verify_password_malformed_cex :
    verify_password "password" "" = .error .unknownHash := by decide

/-- C2 amended: for every plaintext and digest, verify_password returns
the bcrypt verdict when the digest is recognized as a bcrypt hash, and
raises (propagates passlib's UnknownHashError) — never returning false —
when the digest is malformed. -/
theorem verify_password_malformed_raises (plain digest : String) :
    (bcryptIdentify digest = false →
      verify_password plain digest = .error .unknownHash) ∧
    (bcryptIdentify digest = true →
      verify_password plain digest = .ok (checkpw plain digest)) := by
  constructor <;> intro h <;> simp [verify_password, cryptContextVerify, h]

/-- C2 witness: the amended behaviour at concrete inputs — a malformed
digest raises, a digest produced by hash_password verifies true. -/
theorem verify_password_malformed_raises_witness :
    verify_password "password" "garbage" = .error .unknownHash ∧
    verify_password "password" (hash_password "password") = .ok true := by
  constructor
  · exact (verify_password_malformed_raises "password" "garbage").1 (by decide)
  · have h := (verify_password_malformed_raises "password"
      (hash_password "password")).2 (by decide)
    rw [h]
    decide

/-- C1: token round trip — for any claims payload carrying subject (a user
id), username, email, is_superuser and is_verified, and any positive
lifetime, verifying the issued token with the matching kind at any time
strictly before expiry succeeds and returns exactly the issued claims,
for both create_access_token/"access" and create_refresh_token/"refresh". -/
theorem token_round_trip (cfg : AuthConfig) (data : TokenDict)
    (s un em : String) (su ve : Bool) (lifetime now t : Nat)
    (hsub : data.sub = some s) (huuid : isCanonicalUuid s = true)
    (hun : data.username = some un) (hem : data.email = some em)
    (hsu : data.is_superuser = some su) (hve : data.is_verified = some ve)
    (_hpos : 0 < lifetime) (ht : t < now + lifetime) :
    verify_token cfg (create_access_token cfg data (some lifetime) now) "access" t =
      .ok { user_id := s, username := some un, email := some em,
            is_superuser := su, is_verified := ve } ∧
    verify_token cfg (create_refresh_token cfg data (some lifetime) now) "refresh" t =
      .ok { user_id := s, username := some un, email := some em,
            is_superuser := su, is_verified := ve } := by
  constructor <;>
    simp [verify_token, create_access_token, create_refresh_token, jwtEncode,
      jwtDecode, not_le.mpr ht, parseUUID, huuid, hsub, hun, hem, hsu, hve]

/-- C1 witness: a concrete round trip through both token kinds. -/
theorem token_round_trip_witness :
    verify_token { secret_key := "secret", access_token_expire_minutes := 30,
                   refresh_token_expire_days := 7 }
      (create_access_token
        { secret_key := "secret", access_token_expire_minutes := 30,
          refresh_token_expire_days := 7 }
        { sub := some "00000000-0000-0000-0000-000000000000",
          username := some "alice", email := some "alice@example.com",
          is_superuser := some false, is_verified := some true }
        (some 60) 0) "access" 59 =
      .ok { user_id := "00000000-0000-0000-0000-000000000000",
            username := some "alice", email := some "alice@example.com",
            is_superuser := false, is_verified := true } ∧
    verify_token { secret_key := "secret", access_token_expire_minutes := 30,
                   refresh_token_expire_days := 7 }
      (create_refresh_token
        { secret_key := "secret", access_token_expire_minutes := 30,
          refresh_token_expire_days := 7 }
        { sub := some "00000000-0000-0000-0000-000000000000",
          username := some "alice", email := some "alice@example.com",
          is_superuser := some false, is_verified := some true }
        (some 60) 0) "refresh" 59 =
      .ok { user_id := "00000000-0000-0000-0000-000000000000",
            username := some "alice", email := some "alice@example.com",
            is_superuser := false, is_verified := true } :=
  token_round_trip _ _ _ _ _ _ _ _ _ _ rfl (by decide) rfl rfl rfl rfl
    (by decide) (by decide)

/-- C4: kind isolation — at any time strictly before its expiry, a token
issued by create_refresh_token fails verify_token with expected kind
"access" with the 401 INVALID_TOKEN "Invalid token type" error (never
returning claims), and symmetrically a create_access_token token fails
verification with expected kind "refresh" with the same error. -/
theorem token_kind_isolation (cfg : AuthConfig) (data : TokenDict)
    (expires_delta : Option Nat) (now t : Nat) :
    (t < (create_refresh_token cfg data expires_delta now).payload.exp →
      verify_token cfg (create_refresh_token cfg data expires_delta now) "access" t =
        .error { status_code := 401, message := "Invalid token type",
                 error_code := .INVALID_TOKEN }) ∧
    (t < (create_access_token cfg data expires_delta now).payload.exp →
      verify_token cfg (create_access_token cfg data expires_delta now) "refresh" t =
        .error { status_code := 401, message := "Invalid token type",
                 error_code := .INVALID_TOKEN }) := by
  constructor <;> intro ht <;>
    simp only [create_access_token, create_refresh_token, jwtEncode] at ht ⊢ <;>
    simp [verify_token, jwtDecode, not_le.mpr ht]

/-- C4 witness: concrete cross-kind verifications both fail with the
invalid-token-type error. -/
theorem token_kind_isolation_witness :
    verify_token { secret_key := "secret", access_token_expire_minutes := 30,
                   refresh_token_expire_days := 7 }
      (create_refresh_token
        { secret_key := "secret", access_token_expire_minutes := 30,
          refresh_token_expire_days := 7 }
        { sub := some "00000000-0000-0000-0000-000000000000",
          username := none, email := none,
          is_superuser := none, is_verified := none }
        (some 60) 0) "access" 10 =
      .error { status_code := 401, message := "Invalid token type",
               error_code := .INVALID_TOKEN } ∧
    verify_token { secret_key := "secret", access_token_expire_minutes := 30,
                   refresh_token_expire_days := 7 }
      (create_access_token
        { secret_key := "secret", access_token_expire_minutes := 30,
          refresh_token_expire_days := 7 }
        { sub := some "00000000-0000-0000-0000-000000000000",
          username := none, email := none,
          is_superuser := none, is_verified := none }
        (some 60) 0) "refresh" 10 =
      .error { status_code := 401, message := "Invalid token type",
               error_code := .INVALID_TOKEN } :=
  ⟨(token_kind_isolation _ _ _ _ _).1 (by decide),
   (token_kind_isolation _ _ _ _ _).2 (by decide)⟩

/-- C7: soft-delete/restore — on any model that has the is_active column,
an absent id makes both soft_delete and restore return None with the
storage unchanged; on a present id, soft_delete leaves the stored record
with is_active = false, a second soft_delete leaves the stored state of
the first (idempotence), and a restore after a soft_delete leaves the
stored record with is_active = true. -/
theorem soft_delete_restore_spec (attrs : List String) (db : List Entity)
    (id : String) (cuid : Option String)
    (hattr : attrs.contains "is_active" = true) :
    (baseRepoGet db id = none →
      soft_delete attrs db id cuid = (none, db) ∧
      svcRestore attrs db id cuid = (none, db)) ∧
    (∀ e, baseRepoGet db id = some e →
      (baseRepoGet (soft_delete attrs db id cuid).2 id).isSome = true ∧
      (∀ e1, baseRepoGet (soft_delete attrs db id cuid).2 id = some e1 →
        getAttr e1 "is_active" = Value.vBool false) ∧
      (soft_delete attrs (soft_delete attrs db id cuid).2 id cuid).2 =
        (soft_delete attrs db id cuid).2 ∧
      (∀ e2, baseRepoGet
          (svcRestore attrs (soft_delete attrs db id cuid).2 id cuid).2 id = some e2 →
        getAttr e2 "is_active" = Value.vBool true)) := by
  constructor
  · intro h
    constructor <;> simp [soft_delete, svcRestore, h]
  · intro e hget
    have hsd := soft_delete_eq attrs db id cuid e hget
    have h1g : baseRepoGet (soft_delete attrs db id cuid).2 id =
        some (applyFieldMap attrs e (stampUpdate [("is_active", Value.vBool false)] cuid)) := by
      rw [hsd]
      rw [baseRepoGet_updateFirst id _ db (idPred_apply_active attrs id false cuid)]
      rw [hget]
      rfl
    refine ⟨?_, ?_, ?_, ?_⟩
    · rw [h1g]
      rfl
    · intro e1 he1
      rw [h1g] at he1
      injection he1 with he1
      rw [← he1]
      exact getAttr_apply_active attrs e false cuid hattr
    · have hsd2 := soft_delete_eq attrs (soft_delete attrs db id cuid).2 id cuid _ h1g
      rw [hsd2, hsd]
      exact updateFirst_idem _ _ db (idPred_apply_active attrs id false cuid)
        (fun x => applyFieldMap_stamp_active_idem attrs x false cuid)
    · intro e2 he2
      have hres := svcRestore_eq attrs (soft_delete attrs db id cuid).2 id cuid _ h1g
      rw [hres] at he2
      rw [baseRepoGet_updateFirst id _ _ (idPred_apply_active attrs id true cuid),
        h1g] at he2
      injection he2 with he2
      rw [← he2]
      exact getAttr_apply_active attrs _ true cuid hattr

/-- C7 witness: a one-row table with the is_active column — soft delete
stores is_active = false, repeats idempotently, and restore stores
is_active = true. -/
theorem soft_delete_restore_spec_witness :
    baseRepoGet
      (soft_delete ["id", "is_active", "updated_by"]
        [[("id", Value.vStr "u1"), ("is_active", Value.vBool true)]] "u1" none).2
      "u1" = some [("id", Value.vStr "u1"), ("is_active", Value.vBool false)] ∧
    (soft_delete ["id", "is_active", "updated_by"]
      (soft_delete ["id", "is_active", "updated_by"]
        [[("id", Value.vStr "u1"), ("is_active", Value.vBool true)]] "u1" none).2
      "u1" none).2 =
      (soft_delete ["id", "is_active", "updated_by"]
        [[("id", Value.vStr "u1"), ("is_active", Value.vBool true)]] "u1" none).2 ∧
    soft_delete ["id", "is_active", "updated_by"] [] "u1" none = (none, []) := by
  refine ⟨by decide, ?_, ?_⟩
  · exact ((soft_delete_restore_spec ["id", "is_active", "updated_by"]
      [[("id", Value.vStr "u1"), ("is_active", Value.vBool true)]] "u1" none
      (by decide)).2 [("id", Value.vStr "u1"), ("is_active", Value.vBool true)]
      (by decide)).2.2.1
  · exact ((soft_delete_restore_spec ["id", "is_active", "updated_by"] [] "u1" none
      (by decide)).1 (by decide)).1

/-- C8: audit stamping — when an acting-user id is supplied, create
persists both created_by and updated_by equal to it on the stored entity,
and update, softDelete and restore persist updated_by equal to it on the
stored entity (given the model has the updated_by column, as every model
derived from BaseModel does, and, for the generic update, a payload that
does not itself name the id or updated_by columns — no caller's payload
does); when no acting-user id is supplied, the stamping step leaves the
write payload untouched. -/
theorem audit_stamping_spec (attrs : List String) (db : List Entity)
    (id : String) (obj_in : Entity) (uid : String)
    (hupd : attrs.contains "updated_by" = true)
    (hid : (obj_in.map Prod.fst).contains "id" = false)
    (hnu : (obj_in.map Prod.fst).contains "updated_by" = false) :
    (getAttr (svcCreate db obj_in (some uid)).1 "created_by" = Value.vStr uid ∧
     getAttr (svcCreate db obj_in (some uid)).1 "updated_by" = Value.vStr uid ∧
     (svcCreate db obj_in (some uid)).1 ∈ (svcCreate db obj_in (some uid)).2) ∧
    (∀ e, baseRepoGet db id = some e →
      ∀ e1, baseRepoGet (svcUpdate attrs db id obj_in (some uid)).2 id = some e1 →
        getAttr e1 "updated_by" = Value.vStr uid) ∧
    (∀ e, baseRepoGet db id = some e →
      ∀ e1, baseRepoGet (soft_delete attrs db id (some uid)).2 id = some e1 →
        getAttr e1 "updated_by" = Value.vStr uid) ∧
    (∀ e, baseRepoGet db id = some e →
      ∀ e1, baseRepoGet (svcRestore attrs db id (some uid)).2 id = some e1 →
        getAttr e1 "updated_by" = Value.vStr uid) ∧
    (stampCreate obj_in none = obj_in ∧ stampUpdate obj_in none = obj_in) := by
  have hcreate : (svcCreate db obj_in (some uid)).1 =
      setAttr (setAttr obj_in "created_by" (Value.vStr uid)) "updated_by"
        (Value.vStr uid) := rfl
  refine ⟨⟨?_, ?_, ?_⟩, ?_, ?_, ?_, rfl, rfl⟩
  · rw [hcreate,
      getAttr_setAttr_ne _ _ _ _ (by decide : ("created_by" : String) ≠ "updated_by"),
      getAttr_setAttr_same]
  · rw [hcreate, getAttr_setAttr_same]
  · simp [svcCreate, baseRepoCreate]
  · intro e hget e1 he1
    rw [svcUpdate_eq attrs db id obj_in (some uid) e hget] at he1
    rw [baseRepoGet_updateFirst id _ db
      (fun x => idPred_apply_no_id attrs id _ x (stampUpdate_keys_no_id obj_in uid hid hnu)),
      hget] at he1
    injection he1 with he1
    rw [← he1]
    exact getAttr_apply_stamped attrs e obj_in uid hupd hnu
  · intro e hget e1 he1
    rw [soft_delete_eq attrs db id (some uid) e hget] at he1
    rw [baseRepoGet_updateFirst id _ db (idPred_apply_active attrs id false (some uid)),
      hget] at he1
    injection he1 with he1
    rw [← he1]
    exact getAttr_apply_active_stamped attrs e false uid hupd
  · intro e hget e1 he1
    rw [svcRestore_eq attrs db id (some uid) e hget] at he1
    rw [baseRepoGet_updateFirst id _ db (idPred_apply_active attrs id true (some uid)),
      hget] at he1
    injection he1 with he1
    rw [← he1]
    exact getAttr_apply_active_stamped attrs e true uid hupd

/-- C8 witness: concrete stamping through create and soft_delete, and the
no-acting-user case leaving the payload untouched. -/
theorem audit_stamping_spec_witness :
    getAttr (svcCreate ([] : List Entity) [("name", Value.vStr "bob")]
      (some "admin")).1 "created_by" = Value.vStr "admin" ∧
    (∀ e1, baseRepoGet
        (soft_delete ["id", "is_active", "created_by", "updated_by"]
          [[("id", Value.vStr "u1"), ("is_active", Value.vBool true)]] "u1"
          (some "admin")).2 "u1" = some e1 →
      getAttr e1 "updated_by" = Value.vStr "admin") ∧
    stampUpdate [("name", Value.vStr "bob")] none = [("name", Value.vStr "bob")] := by
  refine ⟨?_, ?_, ?_⟩
  · exact (audit_stamping_spec ["id", "is_active", "created_by", "updated_by"] []
      "u1" [("name", Value.vStr "bob")] "admin" (by decide) (by decide) (by decide)).1.1
  · exact (audit_stamping_spec ["id", "is_active", "created_by", "updated_by"]
      [[("id", Value.vStr "u1"), ("is_active", Value.vBool true)]]
      "u1" [("name", Value.vStr "bob")] "admin" (by decide) (by decide)
      (by decide)).2.2.1
      [("id", Value.vStr "u1"), ("is_active", Value.vBool true)] (by decide)
  · exact (audit_stamping_spec ["id", "is_active", "created_by", "updated_by"] []
      "u1" [("name", Value.vStr "bob")] "admin" (by decide) (by decide)
      (by decide)).2.2.2.2.2

/-- C9: partial-update frame property — on a present id, the repository
update succeeds and assigns only payload keys that name a mapped
attribute: a key outside the model's attributes leaves the row's value
unchanged (silently ignored, the update still succeeding), and every
attribute not named in the payload keeps its previous value. -/
theorem update_frame_property (attrs : List String) (db : List Entity)
    (id : String) (obj_in : Entity) (e : Entity)
    (hget : baseRepoGet db id = some e) :
    (baseRepoUpdate attrs db id obj_in).1 = some (applyFieldMap attrs e obj_in) ∧
    (∀ k, attrs.contains k = false →
      getAttr (applyFieldMap attrs e obj_in) k = getAttr e k) ∧
    (∀ k, (obj_in.map Prod.fst).contains k = false →
      getAttr (applyFieldMap attrs e obj_in) k = getAttr e k) := by
  refine ⟨by simp [baseRepoUpdate, hget], ?_, ?_⟩
  · exact fun k hk => getAttr_applyFieldMap_not_attr attrs obj_in e k hk
  · exact fun k hk => getAttr_applyFieldMap_not_key attrs obj_in e k hk

/-- C9 witness: a payload with one known and one unknown key — the update
succeeds, the unknown key is ignored, and an unnamed attribute keeps its
value. -/
theorem update_frame_property_witness :
    (baseRepoUpdate ["id", "name"]
      [[("id", Value.vStr "u1"), ("name", Value.vStr "bob")]] "u1"
      [("name", Value.vStr "rob"), ("bogus", Value.vStr "x")]).1 =
      some (applyFieldMap ["id", "name"]
        [("id", Value.vStr "u1"), ("name", Value.vStr "bob")]
        [("name", Value.vStr "rob"), ("bogus", Value.vStr "x")]) ∧
    getAttr (applyFieldMap ["id", "name"]
      [("id", Value.vStr "u1"), ("name", Value.vStr "bob")]
      [("name", Value.vStr "rob"), ("bogus", Value.vStr "x")]) "bogus" =
      getAttr [("id", Value.vStr "u1"), ("name", Value.vStr "bob")] "bogus" ∧
    getAttr (applyFieldMap ["id", "name"]
      [("id", Value.vStr "u1"), ("name", Value.vStr "bob")]
      [("name", Value.vStr "rob"), ("bogus", Value.vStr "x")]) "id" =
      getAttr [("id", Value.vStr "u1"), ("name", Value.vStr "bob")] "id" :=
  ⟨(update_frame_property ["id", "name"]
      [[("id", Value.vStr "u1"), ("name", Value.vStr "bob")]] "u1"
      [("name", Value.vStr "rob"), ("bogus", Value.vStr "x")]
      [("id", Value.vStr "u1"), ("name", Value.vStr "bob")] (by decide)).1,
   (update_frame_property ["id", "name"]
      [[("id", Value.vStr "u1"), ("name", Value.vStr "bob")]] "u1"
      [("name", Value.vStr "rob"), ("bogus", Value.vStr "x")]
      [("id", Value.vStr "u1"), ("name", Value.vStr "bob")] (by decide)).2.1
      "bogus" (by decide),
   (update_frame_property ["id", "name"]
      [[("id", Value.vStr "u1"), ("name", Value.vStr "bob")]] "u1"
      [("name", Value.vStr "rob"), ("bogus", Value.vStr "x")]
      [("id", Value.vStr "u1"), ("name", Value.vStr "bob")] (by decide)).2.2
      "id" (by decide)⟩

/-- C6: search predicates narrow — every entity returned by get_multi
satisfies the case- and accent-insensitive substring predicate of every
search field the model has (the per-field predicates are ANDed), and
adding a search key makes the filtered row set a sublist of — and the
returned page no longer than — what it was without that key. -/
theorem get_multi_search_narrows (attrs : List String) (db : List Entity)
    (skip limit : Nat) (filters : List (String × Value))
    (search : List (String × String)) :
    (∀ e, e ∈ get_multi attrs db skip limit filters search →
      ∀ kv, kv ∈ search → attrs.contains kv.1 = true →
        ilikeUnaccent (valueText (getAttr e kv.1)) kv.2 = true) ∧
    (∀ k v,
      List.Sublist
        ((db.filter (filtersPred attrs filters)).filter
          (searchPred attrs (search ++ [(k, v)])))
        ((db.filter (filtersPred attrs filters)).filter (searchPred attrs search)) ∧
      (get_multi attrs db skip limit filters (search ++ [(k, v)])).length ≤
        (get_multi attrs db skip limit filters search).length) := by
  have hsplit : ∀ k v,
      (db.filter (filtersPred attrs filters)).filter
        (searchPred attrs (search ++ [(k, v)])) =
      ((db.filter (filtersPred attrs filters)).filter (searchPred attrs search)).filter
        (fun x => if attrs.contains k then
          ilikeUnaccent (valueText (getAttr x k)) v else true) := by
    intro k v
    have hcg : ∀ x ∈ db.filter (filtersPred attrs filters),
        searchPred attrs (search ++ [(k, v)]) x =
          ((fun x => if attrs.contains k then
              ilikeUnaccent (valueText (getAttr x k)) v else true) x &&
           searchPred attrs search x) := by
      intro x _
      simp [searchPred, List.all_append, Bool.and_comm]
    rw [List.filter_congr hcg, ← List.filter_filter]
  constructor
  · intro e he kv hkv hattr
    have h2 : e ∈ (db.filter (filtersPred attrs filters)).filter
        (searchPred attrs search) :=
      List.drop_subset _ _ (List.take_subset _ _ he)
    have hsp := (List.mem_filter.mp h2).2
    have hall := List.all_eq_true.mp hsp kv hkv
    rw [if_pos hattr] at hall
    exact hall
  · intro k v
    have hsub : List.Sublist
        ((db.filter (filtersPred attrs filters)).filter
          (searchPred attrs (search ++ [(k, v)])))
        ((db.filter (filtersPred attrs filters)).filter (searchPred attrs search)) := by
      rw [hsplit k v]
      exact List.filter_sublist _
    refine ⟨hsub, ?_⟩
    have hlen := hsub.length_le
    simp only [get_multi, List.length_take, List.length_drop]
    omega

/-- C6 witness: a concrete row matched by a search key satisfies the
predicate, and adding a key does not lengthen the page. -/
theorem get_multi_search_narrows_witness :
    ilikeUnaccent
      (valueText (getAttr [("username", Value.vStr "Alice")] "username")) "ali" = true ∧
    (get_multi ["username", "email"]
      [[("username", Value.vStr "Alice")]] 0 10 []
      [("username", "ali"), ("email", "x")]).length ≤
    (get_multi ["username", "email"]
      [[("username", Value.vStr "Alice")]] 0 10 [] [("username", "ali")]).length := by
  constructor
  · exact (get_multi_search_narrows ["username", "email"]
      [[("username", Value.vStr "Alice")]] 0 10 [] [("username", "ali")]).1
      [("username", Value.vStr "Alice")] (by decide) ("username", "ali")
      (by decide) (by decide)
  · exact ((get_multi_search_narrows ["username", "email"]
      [[("username", Value.vStr "Alice")]] 0 10 [] [("username", "ali")]).2
      "email" "x").2

/-- C3: authenticate — unknown identifier, a password whose verification
returns false, and an inactive account with a verifying password all
produce exactly the same observable outcome: None with the table
untouched; and when the identifier matches a user whose stored hash
verifies the password and who is active, authenticate commits last_login
= now for that user's id (the row the primary-key update targets carries
last_login = now afterwards) and returns the user's projection. -/
theorem authenticate_indistinguishable_and_success (db : UserDb)
    (ident pwd : String) (now : Nat) :
    (get_by_email_or_username db ident = none →
      authenticate db ident pwd now = .ok (none, db)) ∧
    (∀ u, get_by_email_or_username db ident = some u →
      verify_password pwd u.hashed_password = .ok false →
      authenticate db ident pwd now = .ok (none, db)) ∧
    (∀ u, get_by_email_or_username db ident = some u →
      verify_password pwd u.hashed_password = .ok true →
      u.is_active = false →
      authenticate db ident pwd now = .ok (none, db)) ∧
    (∀ u, get_by_email_or_username db ident = some u →
      verify_password pwd u.hashed_password = .ok true →
      u.is_active = true →
      authenticate db ident pwd now =
        .ok (some (toResponse { u with last_login := some now }),
             (update_last_login db u.id now).2) ∧
      ∀ u1, userRepoGet (update_last_login db u.id now).2 u.id = some u1 →
        u1.last_login = some now) := by
  refine ⟨?_, ?_, ?_, ?_⟩
  · intro h
    simp [authenticate, h]
  · intro u hu hv
    simp [authenticate, hu, hv]
  · intro u hu hv hin
    simp [authenticate, hu, hv, hin]
  · intro u hu hv ha
    refine ⟨by simp [authenticate, hu, hv, ha], ?_⟩
    intro u1 he1
    have hmem : u ∈ db := List.mem_of_find?_eq_some hu
    have hex : (db.find? fun x => x.id == u.id).isSome := by
      rw [List.find?_isSome]
      exact ⟨u, hmem, by simp⟩
    obtain ⟨w, hw⟩ := Option.isSome_iff_exists.mp hex
    have hw' : userRepoGet db u.id = some w := hw
    have hstate : (update_last_login db u.id now).2 =
        updateFirst (fun x => x.id == u.id)
          (fun x => { x with last_login := some now }) db := by
      simp [update_last_login, userRepoUpdate, userRepoGet] at hw' ⊢
      rw [hw']
    rw [hstate] at he1
    have hfind := find?_updateFirst (fun x : User => x.id == u.id)
      (fun x => { x with last_login := some now }) db (fun x hx => hx)
    rw [userRepoGet, hfind, hw, Option.map_some'] at he1
    injection he1 with he1
    rw [← he1]

/-- C3 witness: the unknown-identifier and wrong-password branches at
concrete inputs, both indistinguishably None with the table unchanged. -/
theorem authenticate_cases_witness :
    authenticate [] "alice" "pw" 0 = .ok (none, []) ∧
    authenticate
      [{ id := "00000000-0000-0000-0000-000000000001", email := "alice@example.com",
         username := "alice", full_name := none,
         hashed_password := hash_password "right", is_active := true,
         is_superuser := false, is_verified := false, last_login := none,
         created_by := none, updated_by := none }] "alice" "wrong" 0 =
      .ok (none,
        [{ id := "00000000-0000-0000-0000-000000000001", email := "alice@example.com",
           username := "alice", full_name := none,
           hashed_password := hash_password "right", is_active := true,
           is_superuser := false, is_verified := false, last_login := none,
           created_by := none, updated_by := none }]) := by
  constructor
  · exact (authenticate_indistinguishable_and_success [] "alice" "pw" 0).1 (by decide)
  · exact (authenticate_indistinguishable_and_success _ "alice" "wrong" 0).2.1
      { id := "00000000-0000-0000-0000-000000000001", email := "alice@example.com",
        username := "alice", full_name := none,
        hashed_password := hash_password "right", is_active := true,
        is_superuser := false, is_verified := false, last_login := none,
        created_by := none, updated_by := none } (by decide) (by decide)

/-- C10: change_password — an absent user id returns false as a value
with no error and no state change; a present user whose stored hash does
not verify the supplied current password raises the 400 INVALID_PASSWORD
APIException with the stored state (hence the stored hash) unchanged; and
a verifying current password replaces the stored hash with the hash of
the new password and returns true. -/
theorem change_password_spec (db : UserDb) (user_id : String)
    (pd : PasswordChange) :
    (userRepoGet db user_id = none →
      change_password db user_id pd = (.ret false, db)) ∧
    (∀ u, userRepoGet db user_id = some u →
      verify_password pd.current_password u.hashed_password = .ok false →
      change_password db user_id pd =
        (.apiError { status_code := 400, message := "Current password is incorrect",
                     error_code := .INVALID_PASSWORD }, db)) ∧
    (∀ u, userRepoGet db user_id = some u →
      verify_password pd.current_password u.hashed_password = .ok true →
      change_password db user_id pd =
        (.ret true,
         updateFirst (fun v => v.id == user_id)
           (fun v => { v with hashed_password := hash_password pd.new_password }) db) ∧
      (∀ u1, userRepoGet (change_password db user_id pd).2 user_id = some u1 →
        u1.hashed_password = hash_password pd.new_password)) := by
  refine ⟨?_, ?_, ?_⟩
  · intro h
    simp [change_password, h]
  · intro u hu hv
    simp [change_password, hu, hv]
  · intro u hu hv
    have hpair : change_password db user_id pd =
        (.ret true,
         updateFirst (fun v => v.id == user_id)
           (fun v => { v with hashed_password := hash_password pd.new_password }) db) := by
      simp [change_password, hu, hv, userRepoUpdate]
    refine ⟨hpair, ?_⟩
    intro u1 he1
    rw [hpair] at he1
    have hfind := find?_updateFirst (fun v : User => v.id == user_id)
      (fun v => { v with hashed_password := hash_password pd.new_password }) db
      (fun x hx => hx)
    rw [userRepoGet, hfind] at he1
    rw [show List.find? (fun v => v.id == user_id) db = some u from hu,
      Option.map_some'] at he1
    injection he1 with he1
    rw [← he1]

/-- C10 witness: the absent-user and wrong-current-password branches at
concrete inputs. -/
theorem change_password_spec_witness :
    change_password [] "00000000-0000-0000-0000-000000000001"
      { current_password := "a", new_password := "b" } = (.ret false, []) ∧
    change_password
      [{ id := "00000000-0000-0000-0000-000000000001", email := "alice@example.com",
         username := "alice", full_name := none,
         hashed_password := hash_password "right", is_active := true,
         is_superuser := false, is_verified := false, last_login := none,
         created_by := none, updated_by := none }]
      "00000000-0000-0000-0000-000000000001"
      { current_password := "wrong", new_password := "NewSecret1" } =
      (.apiError { status_code := 400, message := "Current password is incorrect",
                   error_code := .INVALID_PASSWORD },
       [{ id := "00000000-0000-0000-0000-000000000001", email := "alice@example.com",
          username := "alice", full_name := none,
          hashed_password := hash_password "right", is_active := true,
          is_superuser := false, is_verified := false, last_login := none,
          created_by := none, updated_by := none }]) := by
  constructor
  · exact (change_password_spec [] "00000000-0000-0000-0000-000000000001"
      { current_password := "a", new_password := "b" }).1 (by decide)
  · exact (change_password_spec _ "00000000-0000-0000-0000-000000000001"
      { current_password := "wrong", new_password := "NewSecret1" }).2.1
      { id := "00000000-0000-0000-0000-000000000001", email := "alice@example.com",
        username := "alice", full_name := none,
        hashed_password := hash_password "right", is_active := true,
        is_superuser := false, is_verified := false, last_login := none,
        created_by := none, updated_by := none } (by decide) (by decide)

end FastapiBackend
